import Mathlib

/-!
Verification of the `retro` libretro frontend (`src/retro/core.py`,
`src/retro/_retro_wrapper.py`, `src/retro/exceptions.py`).

Byte strings are embedded as `List Nat` (one entry per byte value), the
native core's observable behaviour is a `CoreConfig` parameter plus a trace
of `CoreCall` events, and Python exceptions are the `PyError` inductive,
one constructor per exception class the code can raise.
-/

namespace Retro

/-- Modelled from the spec: the module `retro.globals` is absent from `src/`;
the spec (§4.1) says construction fails when the core's reported API version
differs from the frontend's expected version constant. The concrete value is
irrelevant to every claim. -/
def RETRO_API_VERSION : Nat := 1

/-- Modelled from the spec: `retro.globals` is absent from `src/`. The
memory-type enum, in the declared order the spec (§3) lists: save RAM, RTC,
system RAM, video RAM. -/
def MEMORY_SAVE_RAM : Nat := 0

/-- Modelled from the spec: second memory type, the real-time clock. -/
def MEMORY_RTC : Nat := 1

/-- Modelled from the spec: third memory type, system RAM. -/
def MEMORY_SYSTEM_RAM : Nat := 2

/-- Modelled from the spec: fourth memory type, video RAM. -/
def MEMORY_VIDEO_RAM : Nat := 3

/-- Modelled from the spec: `retro.globals` is absent from `src/`; list of
all valid memory types in the enum's declared order (§3, §4.4). -/
def VALID_MEMORY_TYPES : List Nat :=
  [MEMORY_SAVE_RAM, MEMORY_RTC, MEMORY_SYSTEM_RAM, MEMORY_VIDEO_RAM]

/-- Modelled from the spec (§8): index of the save-RAM entry in the
snapshot collection returned by `unload`. -/
def SAVE_RAM_INDEX : Nat := 0

/-- Modelled from the spec: `retro.globals` is absent from `src/`; a
light-gun device constant (`DEVICE_LIGHTGUN_SUPER_SCOPE`). Only its
identity matters to the claims, never its value. -/
def DEVICE_LIGHTGUN_SUPER_SCOPE : Nat := 260

/-- Modelled from the spec: `DEVICE_LIGHTGUN_JUSTIFIER`. -/
def DEVICE_LIGHTGUN_JUSTIFIER : Nat := 516

/-- Modelled from the spec: `DEVICE_LIGHTGUN_JUSTIFIERS`. -/
def DEVICE_LIGHTGUN_JUSTIFIERS : Nat := 772

/-- Python exceptions the code can raise: one constructor per class of
`src/retro/exceptions.py`, plus `keyError` for Python's builtin `KeyError`
raised by dict lookups (`self._loaded_cheats[index]`, `del`). -/
inductive PyError where
  | retroException (msg : String)
  | noGameLoaded (msg : String)
  | gameAlreadyLoaded (msg : String)
  | libraryInUse (msg : String)
  | libraryVersionMismatch (msg : String)
  | fullPathRequired (msg : String)
  | dataAndPathNotProvided (msg : String)
  | keyError
  deriving Repr, DecidableEq

/-- The exception class names defined in `src/retro/exceptions.py`
(lines 1-39): the whole RetroException hierarchy. -/
def retroExceptionClasses : List String :=
  ["RetroException", "NoGameLoaded", "GameAlreadyLoaded", "LibraryInUse",
   "LibraryVersionMismatch", "FullPathRequired", "DataAndPathNotProvided"]

/-- `retro_game_info(path, data, len(data), meta)` built by
`load_game_normal` (core.py line 498). -/
structure GameInfo where
  path : String
  data : List Nat
  size : Nat
  meta : String
  deriving Repr, DecidableEq

/-- Observable calls into the native core's entry points. -/
inductive CoreCall where
  | cheatReset
  | cheatSet (index : Int) (enabled : Bool) (code : String)
  | getMemoryData (memType : Nat)
  | unloadGame
  | loadGame (g : GameInfo)
  | resetCall
  | runCall
  | unserializeCall (state : List Nat)
  | setControllerPortDevice (port : Nat) (device : Nat)
  deriving Repr, DecidableEq

/-- Static behaviour of the loaded native core (outside the frontend:
spec §1 treats the core as an external collaborator behind the library
boundary). `freshMem g t` is the contents of memory region `t` right after
`retro_load_game(g)`; region sizes are fixed per loaded game (spec §3). -/
structure CoreConfig where
  apiVersion : Nat
  needFullpath : Bool
  initialMem : Nat → List Nat
  freshMem : GameInfo → Nat → List Nat
  serializeOk : Bool
  serializeData : List Nat
  unserializeOk : Bool

/-- The callback slots registered with the core (`retro_set_*`). A slot is
`none` until some `set_*_cb` wrapper has registered a callback. -/
structure Callbacks where
  environment : Option (Nat → Nat → Unit)
  videoRefresh : Option (Nat → Nat → Nat → Nat → Unit)
  audioSample : Option (Int → Int → Unit)
  audioSampleBatch : Option (List Int → Nat → Unit)
  inputPoll : Option (Unit → Unit)
  inputState : Option (Nat → Nat → Nat → Nat → Int)

/-- State of one `EmulatedSystem` instance plus the memory regions of its
core. `loadedCheats` embeds the Python dict `_loaded_cheats` as an
insertion-ordered association list `index ↦ (code, enabled)`. -/
structure Session where
  libname : String
  libActive : Bool
  gameLoaded : Bool
  loadedCheats : List (Int × String × Bool)
  mem : Nat → List Nat
  callbacks : Callbacks

/-- Message of `EX.NoGameLoaded` raised by `_require_game_loaded`
(core.py line 168). -/
def noGameLoadedMsg : String := "This method requires that a game be loaded!"

/-- Message of `EX.GameAlreadyLoaded` raised by `_require_game_not_loaded`
(core.py line 175). -/
def gameAlreadyLoadedMsg : String := "This method requires that no game be loaded!"

/-- Message of the `EX.RetroException` raised by `_string_to_memory` on a
length mismatch (core.py lines 156-160). -/
def sizeMismatchMsg (memSize memType dataLen : Nat) : String :=
  "This game requires " ++ toString memSize ++ " bytes of memory type " ++
    toString memType ++ ", not " ++ toString dataLen ++ " bytes"

/-- Python dict assignment `d[k] = v`: replaces in place when the key is
present, otherwise appends (dicts preserve insertion order). -/
def dictSet (d : List (Int × String × Bool)) (k : Int) (v : String × Bool) :
    List (Int × String × Bool) :=
  if d.any (fun p => p.1 == k) then
    d.map (fun p => if p.1 == k then (k, v) else p)
  else
    d ++ [(k, v)]

/-- `EmulatedSystem._reload_cheats` (core.py lines 121-130): calls
`retro_cheat_reset()` then `retro_cheat_set(index, enabled, code)` for every
entry of `_loaded_cheats`, in mapping (insertion) order. Returns the trace
of core calls it issues. -/
def reload_cheats (cheats : List (Int × String × Bool)) : List CoreCall :=
  CoreCall.cheatReset ::
    cheats.map (fun p => CoreCall.cheatSet p.1 p.2.2 p.2.1)

/-- `EmulatedSystem._memory_to_string` (core.py lines 132-144): `None` when
the core reports size zero for the type, else the region's bytes. -/
def memory_to_string (s : Session) (memType : Nat) : Option (List Nat) :=
  if (s.mem memType).length = 0 then none else some (s.mem memType)

/-- `EmulatedSystem._string_to_memory` (core.py lines 146-161): raises the
base `RetroException` when `len(data) != mem_size`, before any byte is
copied; otherwise copies every byte into the core's buffer for that type. -/
def string_to_memory (s : Session) (data : List Nat) (memType : Nat) :
    Except PyError Unit × Session :=
  let memSize := (s.mem memType).length
  if data.length ≠ memSize then
    (Except.error (PyError.retroException
        (sizeMismatchMsg memSize memType data.length)), s)
  else
    (Except.ok (),
     { s with mem := fun t => if t = memType then data else s.mem t })

/-- The callback slots as `EmulatedSystem.__init__` leaves them (core.py
lines 114-119): dummy defaults are registered for video refresh, audio
sample, input poll and input state only; no `set_audio_sample_batch_cb` or
`set_environment_cb` call appears in the constructor. -/
def constructedCallbacks : Callbacks :=
  { environment := none
    videoRefresh := some (fun _ _ _ _ => ())
    audioSample := some (fun _ _ => ())
    audioSampleBatch := none
    inputPoll := some (fun _ => ())
    inputState := some (fun _ _ _ _ => 0) }

/-- The session a successful `EmulatedSystem.__init__` produces. -/
def initSession (cfg : CoreConfig) (libname : String) : Session :=
  { libname := libname
    libActive := true
    gameLoaded := false
    loadedCheats := []
    mem := cfg.initialMem
    callbacks := constructedCallbacks }

/-- `EmulatedSystem.__init__` together with `LowLevelWrapper.__init__`
(core.py lines 98-119, _retro_wrapper.py lines 15-25). Checks the registry,
then the API version, registers the library name, and installs the default
callbacks of `constructedCallbacks`. Returns the construction result and
the updated registry. -/
def EmulatedSystem_init (cfg : CoreConfig) (libname : String)
    (reg : List String) : Except PyError Session × List String :=
  if libname ∈ reg then
    (Except.error (PyError.libraryInUse
        ("Library " ++ libname ++ " already in use.")), reg)
  else if cfg.apiVersion ≠ RETRO_API_VERSION then
    (Except.error (PyError.libraryVersionMismatch
        ("Unsupported libretro API version " ++ toString cfg.apiVersion)), reg)
  else
    (Except.ok (initSession cfg libname), libname :: reg)

/-- `EmulatedSystem.close` (core.py lines 519-526): deactivates the wrapper
and removes the library name from the registry when present. -/
def close (s : Session) (reg : List String) : Session × List String :=
  ({ s with libActive := false },
   if s.libname ∈ reg then reg.erase s.libname else reg)

/-- `EmulatedSystem.reset` (core.py lines 341-348). -/
def reset (s : Session) : Except PyError Unit × Session × List CoreCall :=
  if ¬ s.gameLoaded then
    (Except.error (PyError.noGameLoaded noGameLoadedMsg), s, [])
  else
    (Except.ok (), s, [CoreCall.resetCall])

/-- `EmulatedSystem.run` (core.py lines 350-363). -/
def run (s : Session) : Except PyError Unit × Session × List CoreCall :=
  if ¬ s.gameLoaded then
    (Except.error (PyError.noGameLoaded noGameLoadedMsg), s, [])
  else
    (Except.ok (), s, [CoreCall.runCall])

/-- `EmulatedSystem.unload` (core.py lines 365-383): snapshots every type of
`VALID_MEMORY_TYPES` via `_memory_to_string`, then calls
`retro_unload_game()`, empties `_loaded_cheats` and clears `_game_loaded`. -/
def unload (s : Session) :
    Except PyError (List (Option (List Nat))) × Session × List CoreCall :=
  if ¬ s.gameLoaded then
    (Except.error (PyError.noGameLoaded noGameLoadedMsg), s, [])
  else
    (Except.ok (VALID_MEMORY_TYPES.map (memory_to_string s)),
     { s with gameLoaded := false, loadedCheats := [] },
     (VALID_MEMORY_TYPES.map CoreCall.getMemoryData) ++ [CoreCall.unloadGame])

/-- `EmulatedSystem.serialize` (core.py lines 392-408): requires a loaded
game, then returns the buffer the core filled, or raises the base
`RetroException` when the core reports failure. -/
def serialize (cfg : CoreConfig) (s : Session) :
    Except PyError (List Nat) × Session :=
  if ¬ s.gameLoaded then
    (Except.error (PyError.noGameLoaded noGameLoadedMsg), s)
  else if cfg.serializeOk then
    (Except.ok cfg.serializeData, s)
  else
    (Except.error (PyError.retroException "problem in serialize"), s)

/-- `EmulatedSystem.unserialize` (core.py lines 413-425): performs no
game-loaded check; it calls `retro_unserialize` directly and raises the base
`RetroException` when the core reports failure. -/
def unserialize (cfg : CoreConfig) (s : Session) (state : List Nat) :
    Except PyError Unit × Session × List CoreCall :=
  if cfg.unserializeOk then
    (Except.ok (), s, [CoreCall.unserializeCall state])
  else
    (Except.error (PyError.retroException "problem in unserialize"), s,
     [CoreCall.unserializeCall state])

/-- `EmulatedSystem.cheat_add` (core.py lines 427-442): stores
`(code, enabled)` at `index` in `_loaded_cheats`, then `_reload_cheats`. -/
def cheat_add (s : Session) (index : Int) (code : String) (enabled : Bool) :
    Except PyError Unit × Session × List CoreCall :=
  let cheats := dictSet s.loadedCheats index (code, enabled)
  (Except.ok (), { s with loadedCheats := cheats }, reload_cheats cheats)

/-- `EmulatedSystem.cheat_remove` (core.py lines 444-451):
`del self._loaded_cheats[index]` raises `KeyError` on an absent index;
otherwise removes the entry and runs `_reload_cheats`. -/
def cheat_remove (s : Session) (index : Int) :
    Except PyError Unit × Session × List CoreCall :=
  match s.loadedCheats.find? (fun p => p.1 == index) with
  | none => (Except.error PyError.keyError, s, [])
  | some _ =>
    let cheats := s.loadedCheats.filter (fun p => !(p.1 == index))
    (Except.ok (), { s with loadedCheats := cheats }, reload_cheats cheats)

/-- `EmulatedSystem.cheat_set_enabled` (core.py lines 453-464): looks the
entry up (`KeyError` on an absent index), stores `(code, enabled)` back,
then `_reload_cheats`. -/
def cheat_set_enabled (s : Session) (index : Int) (enabled : Bool) :
    Except PyError Unit × Session × List CoreCall :=
  match s.loadedCheats.find? (fun p => p.1 == index) with
  | none => (Except.error PyError.keyError, s, [])
  | some p =>
    let cheats := dictSet s.loadedCheats index (p.2.1, enabled)
    (Except.ok (), { s with loadedCheats := cheats }, reload_cheats cheats)

/-- `EmulatedSystem.cheat_is_enabled` (core.py lines 466-473): looks the
entry up (`KeyError` on an absent index) and returns its enabled flag. -/
def cheat_is_enabled (s : Session) (index : Int) :
    Except PyError Bool × Session × List CoreCall :=
  match s.loadedCheats.find? (fun p => p.1 == index) with
  | none => (Except.error PyError.keyError, s, [])
  | some p => (Except.ok p.2.2, s, [])

/-- `EmulatedSystem.set_controller_port_device` (core.py lines 294-338):
forwards `(port, device)` to `retro_set_controller_port_device`
unconditionally; the body contains no validation of any kind. -/
def set_controller_port_device (s : Session) (port device : Nat) :
    Except PyError Unit × Session × List CoreCall :=
  (Except.ok (), s, [CoreCall.setControllerPortDevice port device])

/-- The `retro_game_info` value `load_game_normal` builds. -/
def mkGameInfo (path : String) (data : List Nat) (meta : String) : GameInfo :=
  { path := path, data := data, size := data.length, meta := meta }

/-- The `if sram is not None: self._string_to_memory(sram, ...)` pattern of
`load_game_normal` (core.py lines 507-511). -/
def seedRegion (payload : Option (List Nat)) (memType : Nat) (s : Session) :
    Except PyError Unit × Session :=
  match payload with
  | none => (Except.ok (), s)
  | some d => string_to_memory s d memType

/-- `EmulatedSystem.load_game_normal` (core.py lines 475-511): requires no
game loaded, validates path/data presence, calls `retro_load_game`, sets
`_game_loaded = True`, and only then seeds save RAM and RTC from the
supplied payloads (a seeding failure propagates after the flag is set). -/
def load_game_normal (cfg : CoreConfig) (s : Session) (data : List Nat)
    (sram rtc : Option (List Nat)) (path meta : String) :
    Except PyError Unit × Session × List CoreCall :=
  if s.gameLoaded then
    (Except.error (PyError.gameAlreadyLoaded gameAlreadyLoadedMsg), s, [])
  else if cfg.needFullpath = true ∧ path = "" then
    (Except.error (PyError.fullPathRequired
        "Full path required but not given"), s, [])
  else if path = "" ∧ data = [] then
    (Except.error (PyError.dataAndPathNotProvided
        "No ROM data or path provided"), s, [])
  else
    let g := mkGameInfo path data meta
    let s1 := { s with mem := cfg.freshMem g, gameLoaded := true }
    match seedRegion sram MEMORY_SAVE_RAM s1 with
    | (Except.error e, s2) => (Except.error e, s2, [CoreCall.loadGame g])
    | (Except.ok _, s2) =>
      let r := seedRegion rtc MEMORY_RTC s2
      (r.1, r.2, [CoreCall.loadGame g])

/-- The round-trip scenario of spec §8: load with `sram = S`, unload, then
load the same image again seeding save RAM from the snapshot entry at
`SAVE_RAM_INDEX`. Returns the save-RAM contents after the first load and
after the reload. -/
def sramRoundtripScenario (cfg : CoreConfig) (s0 : Session)
    (data S : List Nat) (path meta : String) : List Nat × List Nat :=
  let r1 := load_game_normal cfg s0 data (some S) none path meta
  let s1 := r1.2.1
  let r2 := unload s1
  let snapshot := match r2.1 with
    | Except.ok l => l
    | Except.error _ => []
  let r3 := load_game_normal cfg r2.2.1 data
      (snapshot.getD SAVE_RAM_INDEX none) none path meta
  (s1.mem MEMORY_SAVE_RAM, r3.2.1.mem MEMORY_SAVE_RAM)

/-- Empty callback slate: no slot registered yet. -/
def noCallbacks : Callbacks :=
  { environment := none, videoRefresh := none, audioSample := none,
    audioSampleBatch := none, inputPoll := none, inputState := none }

/-- A concrete session with no game loaded, used to instantiate theorems. -/
def sampleUnloaded : Session :=
  { libname := "libretro.so", libActive := true, gameLoaded := false,
    loadedCheats := [], mem := fun _ => [], callbacks := noCallbacks }

/-- A concrete loaded session whose save-RAM region holds three bytes. -/
def sampleLoaded3 : Session :=
  { sampleUnloaded with
    gameLoaded := true
    mem := fun t => if t = MEMORY_SAVE_RAM then [0, 0, 0] else [] }

/-- A concrete loaded session with one cheat stored at index 5. -/
def sampleWithCheat : Session :=
  { sampleUnloaded with
    gameLoaded := true
    loadedCheats := [(5, "ABCD-1234", true)] }

/-- A concrete core configuration: version matches, no full path needed,
every loaded game gets a three-byte save-RAM region. -/
def cfg0 : CoreConfig :=
  { apiVersion := RETRO_API_VERSION
    needFullpath := false
    initialMem := fun _ => []
    freshMem := fun _ t => if t = MEMORY_SAVE_RAM then [0, 0, 0] else []
    serializeOk := true
    serializeData := []
    unserializeOk := true }

/-! ## Helper lemmas -/

/-- A successful construction: fresh identifier and matching API version. -/
theorem EmulatedSystem_init_ok (cfg : CoreConfig) (libname : String)
    (reg : List String) (h1 : libname ∉ reg)
    (h2 : cfg.apiVersion = RETRO_API_VERSION) :
    EmulatedSystem_init cfg libname reg =
      (Except.ok (initSession cfg libname), libname :: reg) := by
  simp [EmulatedSystem_init, h1, h2]

/-! ## Claim theorems -/

/-- C1 counterexample: with no game loaded, `cheat_add` does not fail with
`NoGameLoaded`; it succeeds and mutates the cheat mapping, refuting the
claim that every cheat operation invoked while no game is loaded fails with
an InvalidStateError and performs no other effect. -/
theorem c1_counterexample :
    sampleUnloaded.gameLoaded = false ∧
    (cheat_add sampleUnloaded 5 "ABCD-1234" true).1 = Except.ok () ∧
    (cheat_add sampleUnloaded 5 "ABCD-1234" true).2.1.loadedCheats =
      [(5, "ABCD-1234", true)] :=
  ⟨rfl, rfl, rfl⟩

/-- C1 (amended): while no game is loaded, `reset`, `run`, `serialize` and
`unload` fail with `NoGameLoaded` and perform no other effect (state
unchanged, no core call); `load_game_normal` while a game is loaded fails
with `GameAlreadyLoaded` and performs no other effect; but `unserialize`
and the cheat operations perform no game-loaded check: `unserialize`
invokes the core's unserialize entry point regardless of state (succeeding
whenever the core reports success), and `cheat_add` succeeds while
unloaded. -/
theorem state_gating_amended (cfg : CoreConfig) (s sl : Session)
    (hu : s.gameLoaded = false) (hl : sl.gameLoaded = true)
    (st data : List Nat) (sram rtc : Option (List Nat)) (path meta : String)
    (idx : Int) (code : String) (en : Bool) :
    reset s = (Except.error (PyError.noGameLoaded noGameLoadedMsg), s, []) ∧
    run s = (Except.error (PyError.noGameLoaded noGameLoadedMsg), s, []) ∧
    serialize cfg s = (Except.error (PyError.noGameLoaded noGameLoadedMsg), s) ∧
    unload s = (Except.error (PyError.noGameLoaded noGameLoadedMsg), s, []) ∧
    load_game_normal cfg sl data sram rtc path meta =
      (Except.error (PyError.gameAlreadyLoaded gameAlreadyLoadedMsg), sl, []) ∧
    (unserialize cfg s st).2.2 = [CoreCall.unserializeCall st] ∧
    (cfg.unserializeOk = true → unserialize cfg s st =
      (Except.ok (), s, [CoreCall.unserializeCall st])) ∧
    (cheat_add s idx code en).1 = Except.ok () := by
  refine ⟨?_, ?_, ?_, ?_, ?_, ?_, ?_, ?_⟩
  · simp [reset, hu]
  · simp [run, hu]
  · simp [serialize, hu]
  · simp [unload, hu]
  · simp [load_game_normal, hl]
  · by_cases h : cfg.unserializeOk <;> simp [unserialize, h]
  · intro h; simp [unserialize, h]
  · simp [cheat_add]

/-- C1 witness: the amended statement at concrete inputs. -/
theorem state_gating_amended_witness :
    sampleUnloaded.gameLoaded = false ∧ sampleWithCheat.gameLoaded = true ∧
    (reset sampleUnloaded =
      (Except.error (PyError.noGameLoaded noGameLoadedMsg), sampleUnloaded, []) ∧
     run sampleUnloaded =
      (Except.error (PyError.noGameLoaded noGameLoadedMsg), sampleUnloaded, []) ∧
     serialize cfg0 sampleUnloaded =
      (Except.error (PyError.noGameLoaded noGameLoadedMsg), sampleUnloaded) ∧
     unload sampleUnloaded =
      (Except.error (PyError.noGameLoaded noGameLoadedMsg), sampleUnloaded, []) ∧
     load_game_normal cfg0 sampleWithCheat [7] none none "" "" =
      (Except.error (PyError.gameAlreadyLoaded gameAlreadyLoadedMsg),
       sampleWithCheat, []) ∧
     (unserialize cfg0 sampleUnloaded []).2.2 = [CoreCall.unserializeCall []] ∧
     (cfg0.unserializeOk = true → unserialize cfg0 sampleUnloaded [] =
       (Except.ok (), sampleUnloaded, [CoreCall.unserializeCall []])) ∧
     (cheat_add sampleUnloaded 5 "X" true).1 = Except.ok ()) :=
  ⟨rfl, rfl, state_gating_amended cfg0 sampleUnloaded sampleWithCheat rfl rfl
    [] [7] none none "" "" 5 "X" true⟩

/-- C6 counterexample: `cheat_remove` on an absent index raises Python's
builtin `KeyError`, and the exception hierarchy of
`src/retro/exceptions.py` contains no class named `UnknownCheatIndexError`,
refuting the claim that these operations fail with
`UnknownCheatIndexError`. -/
theorem c6_counterexample :
    (cheat_remove sampleWithCheat 7).1 = Except.error PyError.keyError ∧
    (cheat_remove sampleWithCheat 7).2.1.loadedCheats =
      [(5, "ABCD-1234", true)] ∧
    "UnknownCheatIndexError" ∉ retroExceptionClasses :=
  ⟨rfl, rfl, by decide⟩

/-- C6 (amended): `cheat_remove`, `cheat_set_enabled` and
`cheat_is_enabled` invoked with an index not present in the cheat mapping
fail with Python's builtin `KeyError` — a lookup error, but not a class of
the module's exception hierarchy, which defines no `UnknownCheatIndexError`
— and leave the cheat mapping (indeed the whole session) unchanged, with no
core call issued. -/
theorem cheat_absent_index_keyerror (s : Session) (idx : Int)
    (h : s.loadedCheats.find? (fun p => p.1 == idx) = none) :
    cheat_remove s idx = (Except.error PyError.keyError, s, []) ∧
    (∀ en : Bool, cheat_set_enabled s idx en =
      (Except.error PyError.keyError, s, [])) ∧
    cheat_is_enabled s idx = (Except.error PyError.keyError, s, []) ∧
    "UnknownCheatIndexError" ∉ retroExceptionClasses := by
  refine ⟨?_, fun en => ?_, ?_, by decide⟩
  · simp [cheat_remove, h]
  · simp [cheat_set_enabled, h]
  · simp [cheat_is_enabled, h]

/-- C6 witness: the amended statement at a concrete absent index. -/
theorem cheat_absent_index_keyerror_witness :
    sampleWithCheat.loadedCheats.find? (fun p => p.1 == 7) = none ∧
    (cheat_remove sampleWithCheat 7 =
      (Except.error PyError.keyError, sampleWithCheat, []) ∧
     (∀ en : Bool, cheat_set_enabled sampleWithCheat 7 en =
       (Except.error PyError.keyError, sampleWithCheat, [])) ∧
     cheat_is_enabled sampleWithCheat 7 =
       (Except.error PyError.keyError, sampleWithCheat, []) ∧
     "UnknownCheatIndexError" ∉ retroExceptionClasses) :=
  ⟨rfl, cheat_absent_index_keyerror sampleWithCheat 7 rfl⟩

/-- C7 counterexample: a length-mismatched write raises the base
`RetroException` class — the hierarchy of `src/retro/exceptions.py`
defines no `SizeMismatchError` class — refuting the claim that the failure
is a `SizeMismatchError`. The region is indeed left unmutated. -/
theorem c7_counterexample :
    string_to_memory sampleLoaded3 [1, 2] MEMORY_SAVE_RAM =
      (Except.error (PyError.retroException
        (sizeMismatchMsg 3 MEMORY_SAVE_RAM 2)), sampleLoaded3) ∧
    "SizeMismatchError" ∉ retroExceptionClasses :=
  ⟨rfl, by decide⟩

/-- C7 (amended): writing a buffer whose length differs from the size the
core reports for the region raises the base `RetroException` (with the
size-mismatch message; no dedicated `SizeMismatchError` class exists) and
leaves the session — in particular the region contents — unchanged; when
the length matches, every byte is copied into the core's buffer for that
region. -/
theorem string_to_memory_spec (s : Session) (data : List Nat) (t : Nat) :
    (data.length ≠ (s.mem t).length →
      string_to_memory s data t =
        (Except.error (PyError.retroException
          (sizeMismatchMsg (s.mem t).length t data.length)), s)) ∧
    (data.length = (s.mem t).length →
      string_to_memory s data t =
        (Except.ok (),
         { s with mem := fun u => if u = t then data else s.mem u }) ∧
      (string_to_memory s data t).2.mem t = data) ∧
    "SizeMismatchError" ∉ retroExceptionClasses := by
  refine ⟨fun h => ?_, fun h => ⟨?_, ?_⟩, by decide⟩
  · simp [string_to_memory, h]
  · simp [string_to_memory, h]
  · simp [string_to_memory, h]

/-- C7 witness: the amended statement at concrete inputs, using both the
mismatch branch (2 bytes into a 3-byte region) and the matching branch. -/
theorem string_to_memory_spec_witness :
    (([9, 9] : List Nat).length ≠
      (sampleLoaded3.mem MEMORY_SAVE_RAM).length) ∧
    string_to_memory sampleLoaded3 [9, 9] MEMORY_SAVE_RAM =
      (Except.error (PyError.retroException
        (sizeMismatchMsg (sampleLoaded3.mem MEMORY_SAVE_RAM).length
          MEMORY_SAVE_RAM 2)), sampleLoaded3) ∧
    (([7, 8, 9] : List Nat).length =
      (sampleLoaded3.mem MEMORY_SAVE_RAM).length) ∧
    (string_to_memory sampleLoaded3 [7, 8, 9] MEMORY_SAVE_RAM).2.mem
      MEMORY_SAVE_RAM = [7, 8, 9] :=
  ⟨by decide,
   (string_to_memory_spec sampleLoaded3 [9, 9] MEMORY_SAVE_RAM).1 (by decide),
   by decide,
   ((string_to_memory_spec sampleLoaded3 [7, 8, 9] MEMORY_SAVE_RAM).2.1
     (by decide)).2⟩

/-- C9 counterexample: attaching `DEVICE_LIGHTGUN_SUPER_SCOPE` to port 0 —
a port other than index 1, which the claim says must be rejected with an
error — succeeds and is forwarded straight to the core's entry point. -/
theorem c9_counterexample :
    set_controller_port_device sampleWithCheat 0 DEVICE_LIGHTGUN_SUPER_SCOPE =
      (Except.ok (), sampleWithCheat,
       [CoreCall.setControllerPortDevice 0 DEVICE_LIGHTGUN_SUPER_SCOPE]) :=
  rfl

/-- C9 (amended): `set_controller_port_device` performs no device-port
validation whatsoever: every `(port, device)` pair — light-gun variants on
any port included — is forwarded unchanged to the core's
`retro_set_controller_port_device` entry point, no error is ever raised,
and the session is untouched (the port restriction is stated in the
docstring as a caller obligation only). -/
theorem set_controller_port_device_forwards (s : Session)
    (port device : Nat) :
    set_controller_port_device s port device =
      (Except.ok (), s, [CoreCall.setControllerPortDevice port device]) :=
  rfl

/-- C8 counterexample: after a successful construction, the
audio-sample-batch and environment callback slots are still empty — the
constructor registers defaults only for video refresh, audio sample, input
poll and input state — refuting the claim that every one of the six named
slots holds a non-empty default. -/
theorem c8_counterexample :
    (EmulatedSystem_init cfg0 "libretro.so" []).1 =
      Except.ok (initSession cfg0 "libretro.so") ∧
    (initSession cfg0 "libretro.so").callbacks.audioSampleBatch = none ∧
    (initSession cfg0 "libretro.so").callbacks.environment = none :=
  ⟨rfl, rfl, rfl⟩

/-- C8 (amended): after a successful construction the video-refresh,
audio-sample, input-poll and input-state slots hold non-empty default
callbacks (the input-state default returning 0), but the
audio-sample-batch and environment slots are left empty: the constructor
never calls `set_audio_sample_batch_cb` or `set_environment_cb`. -/
theorem init_default_callbacks (cfg : CoreConfig) (libname : String)
    (reg : List String) (h1 : libname ∉ reg)
    (h2 : cfg.apiVersion = RETRO_API_VERSION) :
    ∃ s : Session,
      (EmulatedSystem_init cfg libname reg).1 = Except.ok s ∧
      s.callbacks.videoRefresh = some (fun _ _ _ _ => ()) ∧
      s.callbacks.audioSample = some (fun _ _ => ()) ∧
      s.callbacks.inputPoll = some (fun _ => ()) ∧
      s.callbacks.inputState = some (fun _ _ _ _ => 0) ∧
      s.callbacks.audioSampleBatch = none ∧
      s.callbacks.environment = none := by
  refine ⟨initSession cfg libname, ?_, rfl, rfl, rfl, rfl, rfl, rfl⟩
  rw [EmulatedSystem_init_ok cfg libname reg h1 h2]

/-- C8 witness: the amended statement at concrete inputs. -/
theorem init_default_callbacks_witness :
    "libretro.so" ∉ ([] : List String) ∧
    cfg0.apiVersion = RETRO_API_VERSION ∧
    (∃ s : Session,
      (EmulatedSystem_init cfg0 "libretro.so" []).1 = Except.ok s ∧
      s.callbacks.videoRefresh = some (fun _ _ _ _ => ()) ∧
      s.callbacks.audioSample = some (fun _ _ => ()) ∧
      s.callbacks.inputPoll = some (fun _ => ()) ∧
      s.callbacks.inputState = some (fun _ _ _ _ => 0) ∧
      s.callbacks.audioSampleBatch = none ∧
      s.callbacks.environment = none) :=
  ⟨by decide, rfl, init_default_callbacks cfg0 "libretro.so" [] (by decide) rfl⟩

/-- C2: a first construction on a fresh identifier succeeds and registers
it; a second construction on the same identifier while the first remains
open fails with `LibraryInUse` and returns the registry unchanged; `close`
removes the identifier from the registry, after which a new construction
on the same identifier succeeds. -/
theorem library_in_use_then_reopen (cfg cfg2 : CoreConfig)
    (libname : String) (reg : List String) (hfresh : libname ∉ reg)
    (hv : cfg.apiVersion = RETRO_API_VERSION)
    (hv2 : cfg2.apiVersion = RETRO_API_VERSION) :
    ∃ s : Session,
      (EmulatedSystem_init cfg libname reg).1 = Except.ok s ∧
      (EmulatedSystem_init cfg libname reg).2 = libname :: reg ∧
      EmulatedSystem_init cfg2 libname (libname :: reg) =
        (Except.error (PyError.libraryInUse
          ("Library " ++ libname ++ " already in use.")), libname :: reg) ∧
      (close s (libname :: reg)).2 = reg ∧
      (∃ s2 : Session,
        (EmulatedSystem_init cfg2 libname reg).1 = Except.ok s2) := by
  refine ⟨initSession cfg libname, ?_, ?_, ?_, ?_,
    ⟨initSession cfg2 libname, ?_⟩⟩
  · rw [EmulatedSystem_init_ok cfg libname reg hfresh hv]
  · rw [EmulatedSystem_init_ok cfg libname reg hfresh hv]
  · simp [EmulatedSystem_init]
  · simp [close, initSession]
  · rw [EmulatedSystem_init_ok cfg2 libname reg hfresh hv2]

/-- C2 witness: the statement at concrete inputs. -/
theorem library_in_use_then_reopen_witness :
    "libretro.so" ∉ ([] : List String) ∧
    cfg0.apiVersion = RETRO_API_VERSION ∧
    (∃ s : Session,
      (EmulatedSystem_init cfg0 "libretro.so" []).1 = Except.ok s ∧
      (EmulatedSystem_init cfg0 "libretro.so" []).2 = ["libretro.so"] ∧
      EmulatedSystem_init cfg0 "libretro.so" ["libretro.so"] =
        (Except.error (PyError.libraryInUse
          ("Library " ++ "libretro.so" ++ " already in use.")),
         ["libretro.so"]) ∧
      (close s ["libretro.so"]).2 = [] ∧
      (∃ s2 : Session,
        (EmulatedSystem_init cfg0 "libretro.so" []).1 = Except.ok s2)) :=
  ⟨by decide, rfl,
   library_in_use_then_reopen cfg0 cfg0 "libretro.so" [] (by decide) rfl rfl⟩

/-- C5: after each successful cheat mutation — `cheat_add` always,
`cheat_remove` and `cheat_set_enabled` whenever the index is present — the
core's cheat table is fully re-synchronized: the trace of core calls is
exactly `retro_cheat_reset` followed by one `retro_cheat_set` per entry of
the resulting cheat mapping, in mapping order; no incremental update
occurs. -/
theorem cheat_mutation_resync (s : Session) (idx : Int) (code : String)
    (en en2 : Bool) :
    (cheat_add s idx code en).2.2 =
      CoreCall.cheatReset ::
        ((cheat_add s idx code en).2.1.loadedCheats.map
          (fun p => CoreCall.cheatSet p.1 p.2.2 p.2.1)) ∧
    ((s.loadedCheats.find? (fun p => p.1 == idx)).isSome = true →
      (cheat_remove s idx).2.2 =
        CoreCall.cheatReset ::
          ((cheat_remove s idx).2.1.loadedCheats.map
            (fun p => CoreCall.cheatSet p.1 p.2.2 p.2.1)) ∧
      (cheat_set_enabled s idx en2).2.2 =
        CoreCall.cheatReset ::
          ((cheat_set_enabled s idx en2).2.1.loadedCheats.map
            (fun p => CoreCall.cheatSet p.1 p.2.2 p.2.1))) := by
  refine ⟨?_, fun h => ?_⟩
  · simp [cheat_add, reload_cheats]
  · obtain ⟨p, hp⟩ := Option.isSome_iff_exists.mp h
    exact ⟨by simp [cheat_remove, hp, reload_cheats],
           by simp [cheat_set_enabled, hp, reload_cheats]⟩

/-- C5 witness: the statement both at a fresh index on an empty cheat
mapping (the `cheatAdd(5, ...)` scenario of spec §8) and at a session
already holding a cheat at index 5 for the remove/set-enabled parts. -/
theorem cheat_mutation_resync_witness :
    ((cheat_add sampleUnloaded 5 "ABCD-1234" true).2.2 =
      CoreCall.cheatReset ::
        ((cheat_add sampleUnloaded 5 "ABCD-1234" true).2.1.loadedCheats.map
          (fun p => CoreCall.cheatSet p.1 p.2.2 p.2.1))) ∧
    (sampleWithCheat.loadedCheats.find?
      (fun p => p.1 == 5)).isSome = true ∧
    ((cheat_remove sampleWithCheat 5).2.2 =
      CoreCall.cheatReset ::
        ((cheat_remove sampleWithCheat 5).2.1.loadedCheats.map
          (fun p => CoreCall.cheatSet p.1 p.2.2 p.2.1)) ∧
     (cheat_set_enabled sampleWithCheat 5 false).2.2 =
      CoreCall.cheatReset ::
        ((cheat_set_enabled sampleWithCheat 5 false).2.1.loadedCheats.map
          (fun p => CoreCall.cheatSet p.1 p.2.2 p.2.1))) :=
  ⟨(cheat_mutation_resync sampleUnloaded 5 "ABCD-1234" true false).1,
   rfl,
   (cheat_mutation_resync sampleWithCheat 5 "EEEE-5678" true false).2 rfl⟩

/-- C3: `unload` on a loaded session returns exactly one entry per memory
type of `VALID_MEMORY_TYPES`, in that list's declared order, each entry
computed by `_memory_to_string` from the pre-unload state — `none` when the
region size is zero, otherwise the region's bytes; the core's memory reads
precede the `retro_unload_game` call in the trace; afterwards the cheat
mapping is empty and the session is unloaded. -/
theorem unload_snapshot_spec (s : Session) (h : s.gameLoaded = true) :
    unload s =
      (Except.ok
        [memory_to_string s MEMORY_SAVE_RAM, memory_to_string s MEMORY_RTC,
         memory_to_string s MEMORY_SYSTEM_RAM,
         memory_to_string s MEMORY_VIDEO_RAM],
       { s with gameLoaded := false, loadedCheats := [] },
       [CoreCall.getMemoryData MEMORY_SAVE_RAM,
        CoreCall.getMemoryData MEMORY_RTC,
        CoreCall.getMemoryData MEMORY_SYSTEM_RAM,
        CoreCall.getMemoryData MEMORY_VIDEO_RAM,
        CoreCall.unloadGame]) ∧
    (∀ t : Nat, (s.mem t).length = 0 → memory_to_string s t = none) ∧
    (∀ t : Nat, (s.mem t).length ≠ 0 →
      memory_to_string s t = some (s.mem t)) := by
  refine ⟨?_, fun t ht => ?_, fun t ht => ?_⟩
  · simp [unload, h, VALID_MEMORY_TYPES]
  · simp [memory_to_string, ht]
  · simp [memory_to_string, ht]

/-- C3 witness: the statement at a concrete loaded session whose save-RAM
region holds three bytes and whose other regions are empty. -/
theorem unload_snapshot_spec_witness :
    sampleLoaded3.gameLoaded = true ∧
    (unload sampleLoaded3 =
      (Except.ok
        [memory_to_string sampleLoaded3 MEMORY_SAVE_RAM,
         memory_to_string sampleLoaded3 MEMORY_RTC,
         memory_to_string sampleLoaded3 MEMORY_SYSTEM_RAM,
         memory_to_string sampleLoaded3 MEMORY_VIDEO_RAM],
       { sampleLoaded3 with gameLoaded := false, loadedCheats := [] },
       [CoreCall.getMemoryData MEMORY_SAVE_RAM,
        CoreCall.getMemoryData MEMORY_RTC,
        CoreCall.getMemoryData MEMORY_SYSTEM_RAM,
        CoreCall.getMemoryData MEMORY_VIDEO_RAM,
        CoreCall.unloadGame]) ∧
     (∀ t : Nat, (sampleLoaded3.mem t).length = 0 →
       memory_to_string sampleLoaded3 t = none) ∧
     (∀ t : Nat, (sampleLoaded3.mem t).length ≠ 0 →
       memory_to_string sampleLoaded3 t = some (sampleLoaded3.mem t))) :=
  ⟨rfl, unload_snapshot_spec sampleLoaded3 rfl⟩

/-- Helper: successful load with no seeding payloads. -/
theorem load_game_normal_none (cfg : CoreConfig) (s : Session)
    (data : List Nat) (path meta : String) (h0 : s.gameLoaded = false)
    (h1 : ¬(cfg.needFullpath = true ∧ path = ""))
    (h2 : ¬(path = "" ∧ data = [])) :
    load_game_normal cfg s data none none path meta =
      (Except.ok (),
       { s with mem := cfg.freshMem (mkGameInfo path data meta),
                gameLoaded := true },
       [CoreCall.loadGame (mkGameInfo path data meta)]) := by
  simp [load_game_normal, h0, h1, h2, seedRegion]

/-- Helper: successful load seeding save RAM with a size-matching payload. -/
theorem load_game_normal_some (cfg : CoreConfig) (s : Session)
    (data S : List Nat) (path meta : String) (h0 : s.gameLoaded = false)
    (h1 : ¬(cfg.needFullpath = true ∧ path = ""))
    (h2 : ¬(path = "" ∧ data = []))
    (hlen : S.length =
      (cfg.freshMem (mkGameInfo path data meta) MEMORY_SAVE_RAM).length) :
    load_game_normal cfg s data (some S) none path meta =
      (Except.ok (),
       { s with gameLoaded := true,
                mem := fun u => if u = MEMORY_SAVE_RAM then S
                  else cfg.freshMem (mkGameInfo path data meta) u },
       [CoreCall.loadGame (mkGameInfo path data meta)]) := by
  simp [load_game_normal, h0, h1, h2, seedRegion, string_to_memory, hlen]

/-- C4: with a save-RAM payload `S` whose length equals the region size the
core reports for the loaded game, loading with `sram = S`, unloading, and
loading the same image again seeded from the snapshot entry at
`SAVE_RAM_INDEX` reproduces byte-identical save-RAM contents: both loads
leave the region equal to `S`. -/
theorem sram_roundtrip (cfg : CoreConfig) (s0 : Session) (data S : List Nat)
    (path meta : String) (h0 : s0.gameLoaded = false)
    (h1 : ¬(cfg.needFullpath = true ∧ path = ""))
    (h2 : ¬(path = "" ∧ data = []))
    (hlen : S.length =
      (cfg.freshMem (mkGameInfo path data meta) MEMORY_SAVE_RAM).length) :
    sramRoundtripScenario cfg s0 data S path meta = (S, S) := by
  rw [sramRoundtripScenario,
    load_game_normal_some cfg s0 data S path meta h0 h1 h2 hlen]
  by_cases hS : S = []
  · subst hS
    have hfresh0 :
        cfg.freshMem (mkGameInfo path data meta) MEMORY_SAVE_RAM = [] :=
      List.length_eq_zero.mp hlen.symm
    simp only [MEMORY_SAVE_RAM] at hfresh0
    simp only [unload, memory_to_string, VALID_MEMORY_TYPES]
    simp [SAVE_RAM_INDEX, MEMORY_SAVE_RAM, List.getD, load_game_normal,
      seedRegion, string_to_memory, memory_to_string, h1, h2, hfresh0]
  · have hS' : ¬ S.length = 0 := fun h => hS (List.length_eq_zero.mp h)
    have hfreshNe :
        cfg.freshMem (mkGameInfo path data meta) MEMORY_SAVE_RAM ≠ [] := by
      intro h
      exact hS' (by rw [hlen, h]; rfl)
    simp only [MEMORY_SAVE_RAM] at hfreshNe
    simp only [unload, memory_to_string, VALID_MEMORY_TYPES]
    simp [SAVE_RAM_INDEX, MEMORY_SAVE_RAM, List.getD, load_game_normal,
      seedRegion, string_to_memory, memory_to_string, h1, h2, hS', hlen,
      hfreshNe]

/-- C4 witness: the round trip at a concrete core whose save-RAM region
holds three bytes, with payload `[1, 2, 3]`. -/
theorem sram_roundtrip_witness :
    sampleUnloaded.gameLoaded = false ∧
    ¬(cfg0.needFullpath = true ∧ "" = "") ∧
    ¬(("" : String) = "" ∧ ([7] : List Nat) = []) ∧
    ([1, 2, 3] : List Nat).length =
      (cfg0.freshMem (mkGameInfo "" [7] "") MEMORY_SAVE_RAM).length ∧
    sramRoundtripScenario cfg0 sampleUnloaded [7] [1, 2, 3] "" "" =
      ([1, 2, 3], [1, 2, 3]) :=
  ⟨rfl, by decide, by decide, by decide,
   sram_roundtrip cfg0 sampleUnloaded [7] [1, 2, 3] "" "" rfl
     (by decide) (by decide) (by decide)⟩

/-- C10: when the game image is accepted but the supplied sram (or rtc)
payload's length differs from the region size the core reports, the
size-mismatch `RetroException` propagates to the caller while the session
remains loaded: `_game_loaded` is set before the payloads are written and
is not rolled back. -/
theorem load_game_seed_failure_not_atomic (cfg : CoreConfig) (s : Session)
    (data S R : List Nat) (path meta : String) (h0 : s.gameLoaded = false)
    (h1 : ¬(cfg.needFullpath = true ∧ path = ""))
    (h2 : ¬(path = "" ∧ data = [])) :
    (S.length ≠
        (cfg.freshMem (mkGameInfo path data meta) MEMORY_SAVE_RAM).length →
      load_game_normal cfg s data (some S) none path meta =
        (Except.error (PyError.retroException (sizeMismatchMsg
          (cfg.freshMem (mkGameInfo path data meta) MEMORY_SAVE_RAM).length
          MEMORY_SAVE_RAM S.length)),
         { s with mem := cfg.freshMem (mkGameInfo path data meta),
                  gameLoaded := true },
         [CoreCall.loadGame (mkGameInfo path data meta)]) ∧
      (load_game_normal cfg s data (some S) none path meta).2.1.gameLoaded =
        true) ∧
    (R.length ≠
        (cfg.freshMem (mkGameInfo path data meta) MEMORY_RTC).length →
      load_game_normal cfg s data none (some R) path meta =
        (Except.error (PyError.retroException (sizeMismatchMsg
          (cfg.freshMem (mkGameInfo path data meta) MEMORY_RTC).length
          MEMORY_RTC R.length)),
         { s with mem := cfg.freshMem (mkGameInfo path data meta),
                  gameLoaded := true },
         [CoreCall.loadGame (mkGameInfo path data meta)]) ∧
      (load_game_normal cfg s data none (some R) path meta).2.1.gameLoaded =
        true) := by
  constructor
  · intro hS
    have : load_game_normal cfg s data (some S) none path meta =
        (Except.error (PyError.retroException (sizeMismatchMsg
          (cfg.freshMem (mkGameInfo path data meta) MEMORY_SAVE_RAM).length
          MEMORY_SAVE_RAM S.length)),
         { s with mem := cfg.freshMem (mkGameInfo path data meta),
                  gameLoaded := true },
         [CoreCall.loadGame (mkGameInfo path data meta)]) := by
      simp [load_game_normal, h0, h1, h2, seedRegion, string_to_memory, hS]
    exact ⟨this, by rw [this]⟩
  · intro hR
    have : load_game_normal cfg s data none (some R) path meta =
        (Except.error (PyError.retroException (sizeMismatchMsg
          (cfg.freshMem (mkGameInfo path data meta) MEMORY_RTC).length
          MEMORY_RTC R.length)),
         { s with mem := cfg.freshMem (mkGameInfo path data meta),
                  gameLoaded := true },
         [CoreCall.loadGame (mkGameInfo path data meta)]) := by
      simp [load_game_normal, h0, h1, h2, seedRegion, string_to_memory, hR]
    exact ⟨this, by rw [this]⟩

/-- C10 witness: seeding a three-byte save-RAM region with a one-byte
payload fails with the size-mismatch exception yet leaves the session
loaded; likewise a one-byte rtc payload against an empty RTC region. -/
theorem load_game_seed_failure_not_atomic_witness :
    sampleUnloaded.gameLoaded = false ∧
    ¬(cfg0.needFullpath = true ∧ "" = "") ∧
    ¬(("" : String) = "" ∧ ([7] : List Nat) = []) ∧
    ([1] : List Nat).length ≠
      (cfg0.freshMem (mkGameInfo "" [7] "") MEMORY_SAVE_RAM).length ∧
    (load_game_normal cfg0 sampleUnloaded [7] (some [1]) none "" "").2.1.gameLoaded =
      true ∧
    ([1] : List Nat).length ≠
      (cfg0.freshMem (mkGameInfo "" [7] "") MEMORY_RTC).length ∧
    (load_game_normal cfg0 sampleUnloaded [7] none (some [1]) "" "").2.1.gameLoaded =
      true :=
  ⟨rfl, by decide, by decide, by decide,
   ((load_game_seed_failure_not_atomic cfg0 sampleUnloaded [7] [1] [1] "" ""
      rfl (by decide) (by decide)).1 (by decide)).2,
   by decide,
   ((load_game_seed_failure_not_atomic cfg0 sampleUnloaded [7] [1] [1] "" ""
      rfl (by decide) (by decide)).2 (by decide)).2⟩

end Retro
